import Mathlib

/-!
Verification of the adobo ingestion pipeline (`adobo/IO.py`, function
`load_from_file`) and of the plotting entry point `cell_plot`
(`adobo/plotting.py`), as a shallow embedding in Lean 4.

The embedding works on the table produced by the reader: `load_from_file`
hands the file to `pandas.read_csv` and every later stage is a pure
transformation of the resulting frame.  A parsed field is a `Cell`
(integer, fractional numeric, or non-numeric string); a parsed file is a
`ParsedTable` (header fields plus data rows); the in-memory frame carries,
as pandas does, a per-column dtype fixed at parse time (row filtering never
changes a column's dtype) and an index that is either the positional
RangeIndex or the values promoted from the first column.  The field
tokenizer for the default separator is modelled separately (`rsplitWS`),
since the default `sep` argument is the regex pattern matching a single
whitespace character.
-/

set_option maxRecDepth 8000

namespace Adobo

/-- A scalar field of the input table as classified by the reader
(`pandas.read_csv` type inference): an integer literal, a numeric literal
that is not an integer (the `Int` payload only serves to distinguish
distinct fractional values), or a non-numeric string. -/
inductive Cell where
  | intVal : Int → Cell
  | fracVal : Int → Cell
  | strVal : String → Cell
  deriving DecidableEq

/-- Tests whether a cell is an integer literal. -/
def Cell.isInt : Cell → Bool
  | .intVal _ => true
  | _ => false

/-- Tests whether a cell is a non-numeric string. -/
def Cell.isStr : Cell → Bool
  | .strVal _ => true
  | _ => false

/-- Tests whether a cell is a fractional (non-integer) numeric literal. -/
def Cell.isFrac : Cell → Bool
  | .fracVal _ => true
  | _ => false

/-- The dtype pandas infers for a parsed column.  `load_from_file` compares
column dtypes against the integer dtype (line 64: `dtype != int`, line 77:
`dtypes != 'int64'`). -/
inductive Dtype where
  | int64
  | float64
  | obj
  deriving DecidableEq

/-- Column dtype inference of `pandas.read_csv`: `int64` when the column is
nonempty and every field is an integer, `float64` when every field is
numeric and at least one is fractional, `obj` otherwise (any non-numeric
field, or an empty column). -/
def colDtype (c : List Cell) : Dtype :=
  if c.isEmpty then Dtype.obj
  else if c.any Cell.isStr then Dtype.obj
  else if c.any Cell.isFrac then Dtype.float64
  else Dtype.int64

/-- A row label of the in-memory frame: either a position of the default
RangeIndex (no promotion happened), or a value promoted from the first
column by `move_col`. -/
inductive RowLabel where
  | pos : Nat → RowLabel
  | val : Cell → RowLabel
  deriving DecidableEq

/-- The string carried by a promoted string label; `""` on any other label
(only ever applied under the all-string guard that models the `.str`
accessor). -/
def labelStr : RowLabel → String
  | .val (.strVal s) => s
  | _ => ""

/-- Tests whether a row label is a promoted non-numeric string. -/
def isStrLabel : RowLabel → Bool
  | .val (.strVal _) => true
  | _ => false

/-- The table as delivered by `pandas.read_csv` with `header=0`: the header
fields (column labels) and the data rows, each row aligned with the
header. -/
structure ParsedTable where
  cols : List String
  rows : List (List Cell)
  deriving DecidableEq

/-- The in-memory frame flowing through the pipeline: column labels,
per-column dtypes fixed at parse time (pandas keeps a column's dtype under
row filtering), and labelled rows. -/
structure Frame where
  cols : List String
  dtypes : List Dtype
  rows : List (RowLabel × List Cell)
  deriving DecidableEq

/-- The first field of a row (`x[x.columns[0]]` reads the first column). -/
def firstCell (r : List Cell) : Cell := r.getD 0 (Cell.strVal "")

/-- The first column of the parsed table. -/
def firstColumn (t : ParsedTable) : List Cell := t.rows.map firstCell

/-- The frame `read_csv` returns: columns as in the header, dtypes inferred
per column, rows labelled by the default RangeIndex. -/
def initFrame (t : ParsedTable) : Frame :=
  { cols := t.cols,
    dtypes := (List.range t.cols.length).map
      (fun j => colDtype (t.rows.map (fun r => r.getD j (Cell.strVal "")))),
    rows := t.rows.enum.map (fun p => (RowLabel.pos p.1, p.2)) }

/-- Embedding of the inner helper `move_col`: the first column becomes the
index (`x.index = x[x.columns[0]]`) and is dropped from the data columns
(`x.drop(x.columns[0], axis=1)`). -/
def move_col (f : Frame) : Frame :=
  { cols := f.cols.drop 1,
    dtypes := f.dtypes.drop 1,
    rows := f.rows.map (fun p => (RowLabel.val (firstCell p.2), p.2.drop 1)) }

/-- The `column_id` argument, restricted to its validated values. -/
inductive ColumnId where
  | auto
  | yes
  | no
  deriving DecidableEq

/-- Orientation resolution (lines 60 to 67): in mode `auto` the first
column is promoted exactly when its dtype is not the integer dtype; mode
`yes` always promotes; mode `no` never does. -/
def resolveOrientation (mode : ColumnId) (t : ParsedTable) : Frame :=
  match mode with
  | .auto =>
    if colDtype (firstColumn t) = Dtype.int64 then initFrame t
    else move_col (initFrame t)
  | .yes => move_col (initFrame t)
  | .no => initFrame t

/-- The number of rows of `rs` carrying the label `l`. -/
def countLabel (rs : List (RowLabel × List Cell)) (l : RowLabel) : Nat :=
  (rs.filter (fun p => decide (p.1 = l))).length

/-- Duplicate removal (lines 72 to 75): `index.duplicated(False)` marks
every row whose label occurs at least twice, and all marked rows are
dropped. -/
def dedupFrame (f : Frame) : Frame :=
  { f with rows := f.rows.filter (fun p => !(decide (2 ≤ countLabel f.rows p.1))) }

/-- The value `np.sum(dups)` reported in the verbose duplicate message: the
number of rows whose label occurs at least twice. -/
def numDups (f : Frame) : Nat :=
  (f.rows.filter (fun p => decide (2 ≤ countLabel f.rows p.1))).length

/-- The verbose duplicate message of lines 73 to 76, emitted only when at
least one duplicated row exists. -/
def dupMsgs (verbose : Bool) (f : Frame) : List String :=
  if verbose && !(numDups f == 0) then
    [toString (numDups f) ++ " duplicated genes detected and removed."]
  else []

/-- The lowered pattern stem of `'^ArrayControl-[0-9]+'`. -/
def ctlPat : List Char := ['a', 'r', 'r', 'a', 'y', 'c', 'o', 'n', 't', 'r', 'o', 'l', '-']

/-- Tests whether the second list starts with the first one. -/
def leadsWith : List Char → List Char → Bool
  | [], _ => true
  | _ :: _, [] => false
  | p :: ps, c :: cs => p == c && leadsWith ps cs

/-- Embedding of `index.str.contains('^ArrayControl-[0-9]+', regex=True,
case=False)` on one label: the anchored, case-insensitive search succeeds
exactly when the lowered label starts with `arraycontrol-` followed by an
ASCII digit. -/
def matchesControl (s : String) : Bool :=
  let cs := s.data.map Char.toLower
  leadsWith ctlPat cs && ((cs.drop ctlPat.length).headD 'x').isDigit

/-- Control probe filtering (lines 79 to 80): rows whose label matches the
control pattern are dropped. -/
def probeFilter (f : Frame) : Frame :=
  { f with rows := f.rows.filter (fun p => !(matchesControl (labelStr p.1))) }

/-- Removal of every double quote character from a character list — the
effect of the regex substitution `str.replace('"', '')` on one label. -/
def removeQuotes : List Char → List Char
  | [] => []
  | c :: cs => if c = '"' then removeQuotes cs else c :: removeQuotes cs

/-- Label sanitization of one label (`.str.replace('"', '')`). -/
def stripQuotes (s : String) : String := String.mk (removeQuotes s.data)

/-- Label sanitization (lines 81 to 82): double quotes are stripped from
every row label and every column label. -/
def sanitizeFrame (f : Frame) : Frame :=
  { cols := f.cols.map stripQuotes,
    dtypes := f.dtypes,
    rows := f.rows.map
      (fun p => (RowLabel.val (Cell.strVal (stripQuotes (labelStr p.1))), p.2)) }

/-- Guard of the pandas `.str` accessor on the index: it is available
exactly when the index holds string values; on a RangeIndex or a numeric
promoted index the accessor fails. -/
def indexAllStr (f : Frame) : Bool := f.rows.all (fun p => isStrLabel p.1)

/-- The error kinds a load can surface: the missing-file check of line 52,
the `column_id` validation of line 54, the non-count check of line 77, and
the failure of the `.str` accessor on a non-string index (lines 79
and 81). -/
inductive LoadError where
  | fileNotFound
  | invalidParameter
  | nonCountData
  | attrError
  deriving DecidableEq

/-- Modelled from the spec: the `adobo.data.dataset` record itself is not
part of the excerpt (`adobo/data.py` is absent from the sources), so per
section 4.7 the dataset is the validated matrix with its labels plus the
description; the remaining provenance fields play no role in any claim. -/
structure Dataset where
  index : List String
  cols : List String
  matrix : List (List Cell)
  desc : String
  deriving DecidableEq

/-- Assembly of the final dataset record from the sanitized frame. -/
def mkDataset (f : Frame) (desc : String) : Dataset :=
  { index := f.rows.map (fun p => labelStr p.1),
    cols := f.cols,
    matrix := f.rows.map Prod.snd,
    desc := desc }

/-- Digit grouping helper for the `'{:,}'` format: chunks of three. -/
def chunk3 : List Char → List (List Char)
  | [] => []
  | [a] => [[a]]
  | [a, b] => [[a, b]]
  | a :: b :: c :: rest => [a, b, c] :: chunk3 rest

/-- The `'{:,}'.format` rendering of a natural number. -/
def formatThousands (n : Nat) : String :=
  String.mk (List.intercalate [','] (((chunk3 (toString n).data.reverse).reverse).map List.reverse))

/-- The verbose summary line of lines 85 to 88. -/
def summaryMsg (f : Frame) : String :=
  formatThousands f.rows.length ++ " genes and " ++ formatThousands f.cols.length
    ++ " cells were loaded"

/-- The summary message list, emitted only under verbosity. -/
def sumMsgs (verbose : Bool) (f : Frame) : List String :=
  if verbose then [summaryMsg f] else []

/-- Embedding of `load_from_file` from the parsed table on: the existence
check of line 52, orientation resolution, duplicate removal, the non-count
dtype check of line 77 (which precedes control probe filtering), the
`.str`-guarded control probe filter and label sanitization, and dataset
assembly with the verbose messages.  The result pairs the dataset with the
messages printed on a successful load. -/
def load_from_file (fileExists : Bool) (mode : ColumnId) (verbose : Bool)
    (desc : String) (t : ParsedTable) : Except LoadError (Dataset × List String) :=
  if fileExists = false then Except.error LoadError.fileNotFound
  else
    let f0 := resolveOrientation mode t
    let f1 := dedupFrame f0
    if f1.dtypes.any (fun dt => decide (dt ≠ Dtype.int64)) then
      Except.error LoadError.nonCountData
    else if indexAllStr f1 then
      let f2 := probeFilter f1
      if indexAllStr f2 then
        let f3 := sanitizeFrame f2
        Except.ok (mkDataset f3 desc, dupMsgs verbose f0 ++ sumMsgs verbose f3)
      else Except.error LoadError.attrError
    else Except.error LoadError.attrError

/-- The error component of a load outcome, if any. -/
def resultError {α : Type} : Except LoadError α → Option LoadError
  | .error e => some e
  | .ok _ => none

/-- The row labels of a successful load outcome (`[]` on an error). -/
def resultIndex : Except LoadError (Dataset × List String) → List String
  | .ok p => p.1.index
  | .error _ => []

/-- The value matrix of a successful load outcome (`[]` on an error). -/
def resultMatrix : Except LoadError (Dataset × List String) → List (List Cell)
  | .ok p => p.1.matrix
  | .error _ => []

/-- The rows that survive duplicate removal and control probe filtering,
before sanitization. -/
def survivingRows (mode : ColumnId) (t : ParsedTable) : List (RowLabel × List Cell) :=
  (probeFilter (dedupFrame (resolveOrientation mode t))).rows

/-- Tests that a string contains no double quote character. -/
def noQuote (s : String) : Bool := s.data.all (fun c => decide (c ≠ '"'))

/-- Tests that a label carries no double quote character. -/
def labelNoQuote : RowLabel → Bool
  | .val (.strVal s) => noQuote s
  | _ => true

/-- Splitting of one input line at every single occurrence of a whitespace
character — the semantics of splitting with the default separator argument
of `load_from_file`, the regex pattern matching exactly one whitespace
character.  Consecutive separators therefore produce empty fields. -/
def rsplitWS : List Char → List (List Char)
  | [] => [[]]
  | c :: cs =>
    if c.isWhitespace then [] :: rsplitWS cs
    else
      match rsplitWS cs with
      | [] => [[c]]
      | f :: rest => (c :: f) :: rest

/-- The fields of one line under the default separator. -/
def parseFieldsDefault (line : String) : List String :=
  (rsplitWS line.data).map (fun cs => String.mk cs)

/-- The failure modes of `cell_plot`: the target validation of line 118,
the missing-embedding check of line 120, the marker size check of
line 123, and the unbound name `X` hit on line 125 (`cl = [0]*X.shape[0]`;
the embedding variable is `E`) when no clustering exists. -/
inductive PlotError where
  | invalidTarget
  | targetNotFound
  | negMarkerSize
  | nameErrorX
  deriving DecidableEq

/-- The dataset attributes `cell_plot` reads: the embeddings keyed by
method name and the list of clustering results (each reduced to its `cl`
assignment vector). -/
structure PlotObj where
  dr : List (String × List (Int × Int))
  clusters : List (List Nat)
  deriving DecidableEq

/-- Embedding of `cell_plot` from `adobo/plotting.py` (lines 116 to 139):
target validation, embedding lookup, marker size check, then the cluster
branch.  With an empty clustering list the code executes
`cl = [0]*X.shape[0]` where no variable `X` is bound, so the call dies
with a NameError before reaching the verbose message or any plotting;
otherwise the last clustering's assignment is used. -/
def cell_plot (obj : PlotObj) (target : String) (marker_size : Int)
    (verbose : Bool) : Except PlotError (List Nat × List String) :=
  if !(["tsne", "umap", "irlb", "svd"].contains target) then
    Except.error PlotError.invalidTarget
  else if !(obj.dr.any (fun p => p.1 == target)) then
    Except.error PlotError.targetNotFound
  else if marker_size < 0 then Except.error PlotError.negMarkerSize
  else if obj.clusters.length == 0 then
    Except.error PlotError.nameErrorX
  else
    Except.ok (obj.clusters.getLastD [], [])

/-- The error component of a plot outcome, if any. -/
def plotOutcome : Except PlotError (List Nat × List String) → Option PlotError
  | .error e => some e
  | .ok _ => none

/-! ### Concrete inputs used by the claim theorems -/

/-- C1 input: promoted string labels, a negative integer among the counts. -/
def c1NegTable : ParsedTable :=
  { cols := ["g", "c1", "c2"],
    rows := [[Cell.strVal "GeneA", Cell.intVal (-5), Cell.intVal 2],
             [Cell.strVal "GeneB", Cell.intVal 1, Cell.intVal 3]] }

/-- C1 witness input: a fractional value among the counts. -/
def c1FracTable : ParsedTable :=
  { cols := ["g", "c1"],
    rows := [[Cell.strVal "GeneA", Cell.fracVal 25],
             [Cell.strVal "GeneB", Cell.intVal 1]] }

/-- C2 input: two labels differing only by double quotes. -/
def c2QuoteTable : ParsedTable :=
  { cols := ["g", "c1"],
    rows := [[Cell.strVal "\"GeneA\"", Cell.intVal 1],
             [Cell.strVal "GeneA", Cell.intVal 2]] }

/-- C2 witness input: quote-free labels. -/
def c2CleanTable : ParsedTable :=
  { cols := ["g", "c1"],
    rows := [[Cell.strVal "GeneA", Cell.intVal 1],
             [Cell.strVal "GeneB", Cell.intVal 2]] }

/-- C3 input: a control probe label wrapped in literal double quotes. -/
def c3QuoteCtlTable : ParsedTable :=
  { cols := ["g", "c1"],
    rows := [[Cell.strVal "\"ArrayControl-3\"", Cell.intVal 7],
             [Cell.strVal "GeneA", Cell.intVal 1]] }

/-- C3 witness input: quote-free labels with a control probe row. -/
def c3CleanTable : ParsedTable :=
  { cols := ["g", "c1"],
    rows := [[Cell.strVal "arraycontrol-7", Cell.intVal 7],
             [Cell.strVal "GeneA", Cell.intVal 1]] }

/-- C4 input: the only non-integer value sits in a control probe row. -/
def c4CtlTable : ParsedTable :=
  { cols := ["g", "c1"],
    rows := [[Cell.strVal "ArrayControl-1", Cell.fracVal 25],
             [Cell.strVal "GeneA", Cell.intVal 1]] }

/-- C7 witness input: an all-integer first column. -/
def c7IntTable : ParsedTable :=
  { cols := ["10", "20"],
    rows := [[Cell.intVal 1, Cell.intVal 3, Cell.intVal 4],
             [Cell.intVal 2, Cell.intVal 5, Cell.intVal 1]] }

/-- C8 witness frame: one duplicated label, one unique label. -/
def c8DupFrame : Frame :=
  { cols := ["c1", "c2"],
    dtypes := [Dtype.int64, Dtype.int64],
    rows := [(RowLabel.val (Cell.strVal "Gapdh"), [Cell.intVal 1, Cell.intVal 2]),
             (RowLabel.val (Cell.strVal "Gapdh"), [Cell.intVal 3, Cell.intVal 4]),
             (RowLabel.val (Cell.strVal "Actin"), [Cell.intVal 5, Cell.intVal 6])] }

/-- C9 input: an object carrying a tsne embedding but no clustering. -/
def c9PlotObj : PlotObj :=
  { dr := [("tsne", [(0, 0), (1, 1)])], clusters := [] }

/-- C10 witness input: quoted gene and cell labels. -/
def c10QuoteTable : ParsedTable :=
  { cols := ["g", "\"cell1\""],
    rows := [[Cell.strVal "\"GeneA\"", Cell.intVal 1],
             [Cell.strVal "GeneB", Cell.intVal 2]] }

/-- C10 witness output dataset. -/
def c10Dataset : Dataset :=
  { index := ["GeneA", "GeneB"],
    cols := ["cell1"],
    matrix := [[Cell.intVal 1], [Cell.intVal 2]],
    desc := "d" }

/-! ### Helper lemmas about the pipeline stages -/

@[simp] theorem dedupFrame_cols (f : Frame) : (dedupFrame f).cols = f.cols := rfl

@[simp] theorem dedupFrame_dtypes (f : Frame) : (dedupFrame f).dtypes = f.dtypes := rfl

@[simp] theorem probeFilter_cols (f : Frame) : (probeFilter f).cols = f.cols := rfl

@[simp] theorem probeFilter_dtypes (f : Frame) : (probeFilter f).dtypes = f.dtypes := rfl

@[simp] theorem labelStr_val_strVal (s : String) :
    labelStr (RowLabel.val (Cell.strVal s)) = s := rfl

/-- Unfolding of a load over an existing file into its stage conditions. -/
theorem load_true_eq (mode : ColumnId) (v : Bool) (d : String) (t : ParsedTable) :
    load_from_file true mode v d t =
      (if (dedupFrame (resolveOrientation mode t)).dtypes.any
            (fun dt => decide (dt ≠ Dtype.int64)) then
        Except.error LoadError.nonCountData
      else if indexAllStr (dedupFrame (resolveOrientation mode t)) then
        (if indexAllStr (probeFilter (dedupFrame (resolveOrientation mode t))) then
          Except.ok
            (mkDataset (sanitizeFrame (probeFilter (dedupFrame (resolveOrientation mode t)))) d,
             dupMsgs v (resolveOrientation mode t)
               ++ sumMsgs v (sanitizeFrame (probeFilter (dedupFrame (resolveOrientation mode t)))))
        else Except.error LoadError.attrError)
      else Except.error LoadError.attrError) := rfl

/-- A successful load determines the dataset: it is the assembly of the
sanitized, probe-filtered, deduplicated, orientation-resolved table; and
the index the filters ran on consisted of promoted strings. -/
theorem load_ok_inv {mode : ColumnId} {v : Bool} {d : String} {t : ParsedTable}
    {D : Dataset} {m : List String}
    (h : load_from_file true mode v d t = Except.ok (D, m)) :
    D = mkDataset (sanitizeFrame (probeFilter (dedupFrame (resolveOrientation mode t)))) d ∧
    indexAllStr (dedupFrame (resolveOrientation mode t)) = true := by
  rw [load_true_eq] at h
  split at h
  · exact absurd h (by simp)
  · split at h
    · split at h
      · refine ⟨?_, by assumption⟩
        simp only [Except.ok.injEq, Prod.mk.injEq] at h
        exact h.1.symm
      · exact absurd h (by simp)
    · exact absurd h (by simp)

theorem count_fst_eq_countLabel (rs : List (RowLabel × List Cell)) (a : RowLabel) :
    (rs.map Prod.fst).count a = countLabel rs a := by
  rw [List.count_eq_countP, List.countP_map, countLabel, List.countP_eq_length_filter]
  rfl

theorem countLabel_dedup_le_one (f : Frame) (a : RowLabel) :
    countLabel (dedupFrame f).rows a ≤ 1 := by
  unfold countLabel dedupFrame
  simp only [List.filter_filter]
  by_cases hc : 2 ≤ countLabel f.rows a
  · have : (f.rows.filter
        (fun p => decide (p.1 = a) && !(decide (2 ≤ countLabel f.rows p.1)))) = [] := by
      rw [List.filter_eq_nil_iff]
      intro p _ hp
      simp only [Bool.and_eq_true, decide_eq_true_eq, Bool.not_eq_true',
        decide_eq_false_iff_not] at hp
      exact hp.2 (hp.1 ▸ hc)
    rw [this]
    simp
  · have hcomm : (fun p : RowLabel × List Cell =>
        decide (p.1 = a) && !(decide (2 ≤ countLabel f.rows p.1)))
      = fun p => !(decide (2 ≤ countLabel f.rows p.1)) && decide (p.1 = a) := by
      funext p
      exact Bool.and_comm _ _
    calc (f.rows.filter (fun p => decide (p.1 = a)
            && !(decide (2 ≤ countLabel f.rows p.1)))).length
        = ((f.rows.filter (fun p => decide (p.1 = a))).filter
            (fun p => !(decide (2 ≤ countLabel f.rows p.1)))).length := by
          rw [List.filter_filter, hcomm]
      _ ≤ (f.rows.filter (fun p => decide (p.1 = a))).length := List.length_filter_le _ _
      _ ≤ 1 := by
          unfold countLabel at hc
          omega

theorem dedup_keys_nodup (f : Frame) : ((dedupFrame f).rows.map Prod.fst).Nodup := by
  rw [List.nodup_iff_count_le_one]
  intro a
  rw [count_fst_eq_countLabel]
  exact countLabel_dedup_le_one f a

theorem countLabel_dedup_dup_zero (f : Frame) (l : RowLabel)
    (h : 2 ≤ countLabel f.rows l) :
    countLabel (dedupFrame f).rows l = 0 := by
  unfold countLabel dedupFrame
  simp only [List.filter_filter, List.length_eq_zero, List.filter_eq_nil_iff]
  intro p _ hp
  simp only [Bool.and_eq_true, decide_eq_true_eq, Bool.not_eq_true',
    decide_eq_false_iff_not] at hp
  exact hp.2 (hp.1 ▸ h)

theorem dedup_unique_rows_unchanged (f : Frame) (l : RowLabel)
    (h : countLabel f.rows l = 1) :
    (dedupFrame f).rows.filter (fun p => decide (p.1 = l))
      = f.rows.filter (fun p => decide (p.1 = l)) := by
  unfold dedupFrame
  simp only [List.filter_filter]
  apply List.filter_congr
  intro p _
  by_cases hpl : p.1 = l
  · simp [hpl, h]
  · simp [hpl]

theorem length_filter_not_add {α : Type} (q : α → Bool) (l : List α) :
    (l.filter (fun x => !(q x))).length + (l.filter q).length = l.length := by
  induction l with
  | nil => rfl
  | cons x xs ih =>
    by_cases hx : q x = true
    · simp only [List.filter_cons, hx, Bool.not_true, Bool.false_eq_true, if_false, if_true,
        List.length_cons]
      omega
    · rw [Bool.not_eq_true] at hx
      simp only [List.filter_cons, hx, Bool.not_false, Bool.false_eq_true, if_false, if_true,
        List.length_cons]
      omega

theorem dedup_length_add_numDups (f : Frame) :
    (dedupFrame f).rows.length + numDups f = f.rows.length :=
  length_filter_not_add _ f.rows

theorem colDtype_int64_iff {c : List Cell} (hc : c ≠ []) :
    colDtype c = Dtype.int64 ↔ c.all Cell.isInt = true := by
  have h1 : c.isEmpty = false := by
    cases c with
    | nil => exact absurd rfl hc
    | cons a l => rfl
  unfold colDtype
  rw [h1]
  simp only [Bool.false_eq_true, if_false]
  by_cases hs : c.any Cell.isStr = true
  · obtain ⟨x, hx, hxs⟩ := List.any_eq_true.mp hs
    simp only [hs, if_true]
    constructor
    · intro h
      exact absurd h (by simp)
    · intro hall
      have := List.all_eq_true.mp hall x hx
      cases x <;> simp [Cell.isInt, Cell.isStr] at hxs this
  · rw [Bool.not_eq_true] at hs
    simp only [hs, Bool.false_eq_true, if_false]
    by_cases hf : c.any Cell.isFrac = true
    · obtain ⟨x, hx, hxf⟩ := List.any_eq_true.mp hf
      simp only [hf, if_true]
      constructor
      · intro h
        exact absurd h (by simp)
      · intro hall
        have := List.all_eq_true.mp hall x hx
        cases x <;> simp [Cell.isInt, Cell.isFrac] at hxf this
    · rw [Bool.not_eq_true] at hf
      simp only [hf, Bool.false_eq_true, if_false, true_iff]
      rw [List.all_eq_true]
      intro x hx
      have hxs := List.any_eq_false.mp hs x hx
      have hxf := List.any_eq_false.mp hf x hx
      cases x <;> simp [Cell.isInt, Cell.isStr, Cell.isFrac] at hxs hxf ⊢

theorem initFrame_rows_snd (t : ParsedTable) :
    (initFrame t).rows.map Prod.snd = t.rows := by
  have h := List.enumFrom_map_snd 0 t.rows
  simp only [initFrame, List.map_map]
  have hc : (Prod.snd ∘ fun p : Nat × List Cell => (RowLabel.pos p.1, p.2))
      = Prod.snd := by
    funext p
    rfl
  rw [hc, List.enum_eq_enumFrom, h]

theorem move_col_rows_fst (t : ParsedTable) :
    (move_col (initFrame t)).rows.map Prod.fst = (firstColumn t).map RowLabel.val := by
  have h0 := initFrame_rows_snd t
  simp only [move_col, List.map_map, firstColumn]
  conv_rhs => rw [← h0, List.map_map]
  rfl

theorem move_col_rows_snd (t : ParsedTable) :
    (move_col (initFrame t)).rows.map Prod.snd = t.rows.map (List.drop 1) := by
  have h0 := initFrame_rows_snd t
  simp only [move_col, List.map_map]
  conv_rhs => rw [← h0, List.map_map]
  rfl

theorem removeQuotes_eq_filter (cs : List Char) :
    removeQuotes cs = cs.filter (fun c => decide (c ≠ '"')) := by
  induction cs with
  | nil => rfl
  | cons c cs ih =>
    by_cases hc : c = '"'
    · simp [removeQuotes, List.filter_cons, hc, ih]
    · simp [removeQuotes, List.filter_cons, hc, ih]

theorem stripQuotes_of_noQuote {s : String} (h : noQuote s = true) :
    stripQuotes s = s := by
  unfold stripQuotes
  rw [removeQuotes_eq_filter]
  have : s.data.filter (fun c => decide (c ≠ '"')) = s.data :=
    List.filter_eq_self.mpr (List.all_eq_true.mp h)
  rw [this]

theorem rsplitWS_all_solid (l : List Char) (h : l.all (fun c => !c.isWhitespace) = true) :
    rsplitWS l = [l] := by
  induction l with
  | nil => rfl
  | cons c cs ih =>
    rw [List.all_cons, Bool.and_eq_true] at h
    have hcw : c.isWhitespace = false := by
      rw [← Bool.not_eq_true']
      exact h.1
    rw [rsplitWS, hcw]
    simp only [Bool.false_eq_true, if_false, ih h.2]

theorem rsplitWS_ws_runs (k : Nat) (l : List Char) :
    rsplitWS (List.replicate k ' ' ++ l) = List.replicate k [] ++ rsplitWS l := by
  induction k with
  | zero => rfl
  | succ k ih =>
    have hsp : (' ' : Char).isWhitespace = true := by decide
    rw [List.replicate_succ, List.cons_append, rsplitWS, hsp]
    simp only [if_true, ih, List.replicate_succ, List.cons_append]

theorem rsplitWS_solid_cons (a : List Char) (l : List Char)
    (ha : a.all (fun c => !c.isWhitespace) = true) :
    rsplitWS (a ++ ' ' :: l) = a :: rsplitWS l := by
  induction a with
  | nil =>
    have hsp : (' ' : Char).isWhitespace = true := by decide
    rw [List.nil_append, rsplitWS, hsp]
    simp
  | cons c cs ih =>
    rw [List.all_cons, Bool.and_eq_true] at ha
    have hcw : c.isWhitespace = false := by
      rw [← Bool.not_eq_true']
      exact ha.1
    rw [List.cons_append, rsplitWS, hcw]
    simp only [Bool.false_eq_true, if_false, ih ha.2]

theorem mem_probeFilter_rows {f : Frame} {p : RowLabel × List Cell}
    (hp : p ∈ (probeFilter f).rows) :
    p ∈ f.rows ∧ matchesControl (labelStr p.1) = false := by
  unfold probeFilter at hp
  refine ⟨List.mem_of_mem_filter hp, ?_⟩
  have := List.of_mem_filter hp
  rwa [Bool.not_eq_true'] at this

theorem mem_dedupFrame_rows {f : Frame} {p : RowLabel × List Cell}
    (hp : p ∈ (dedupFrame f).rows) : p ∈ f.rows :=
  List.mem_of_mem_filter hp

theorem isStrLabel_exists {l : RowLabel} (h : isStrLabel l = true) :
    ∃ s : String, l = RowLabel.val (Cell.strVal s) := by
  cases l with
  | pos n => simp [isStrLabel] at h
  | val c =>
    cases c with
    | strVal s => exact ⟨s, rfl⟩
    | intVal n => simp [isStrLabel] at h
    | fracVal n => simp [isStrLabel] at h

@[simp] theorem labelNoQuote_strVal (s : String) :
    labelNoQuote (RowLabel.val (Cell.strVal s)) = noQuote s := rfl

/-- On a successful load the final index is the surviving rows' labels
sent through quote stripping. -/
theorem load_ok_index {mode : ColumnId} {v : Bool} {d : String} {t : ParsedTable}
    {D : Dataset} {m : List String}
    (h : load_from_file true mode v d t = Except.ok (D, m)) :
    D.index = (survivingRows mode t).map (fun p => stripQuotes (labelStr p.1)) := by
  obtain ⟨hD, _⟩ := load_ok_inv h
  subst hD
  simp only [mkDataset, sanitizeFrame, survivingRows, List.map_map]
  apply List.map_congr_left
  intro p _
  rfl

/-- Facts available for every row that survives duplicate removal and
probe filtering on an all-string index with quote-free labels. -/
theorem surviving_label_facts {mode : ColumnId} {t : ParsedTable}
    (hstr : indexAllStr (dedupFrame (resolveOrientation mode t)) = true)
    (hq : (resolveOrientation mode t).rows.all (fun p => labelNoQuote p.1) = true)
    {p : RowLabel × List Cell} (hp : p ∈ survivingRows mode t) :
    isStrLabel p.1 = true ∧ noQuote (labelStr p.1) = true ∧
      matchesControl (labelStr p.1) = false := by
  unfold survivingRows at hp
  obtain ⟨hp1, hctl⟩ := mem_probeFilter_rows hp
  have hp0 := mem_dedupFrame_rows hp1
  unfold indexAllStr at hstr
  have hs := List.all_eq_true.mp hstr p hp1
  have hnq := List.all_eq_true.mp hq p hp0
  obtain ⟨s, hps⟩ := isStrLabel_exists hs
  refine ⟨hs, ?_, hctl⟩
  rw [hps, labelStr_val_strVal]
  rw [hps, labelNoQuote_strVal] at hnq
  exact hnq

/-! ### Claims -/

/-- C1, counterexample.  The claim says that a table containing a value
that is not a non-negative integer — in particular a negative integer —
fails with `NonCountData`.  On this table the resolved matrix contains
`-5`, yet the load succeeds and the returned dataset still carries `-5`:
the line 77 check compares column dtypes only, and a column of negative
integers has the integer dtype. -/
theorem C1_counterexample :
    resultError (load_from_file true ColumnId.auto false "d" c1NegTable) = none ∧
    Cell.intVal (-5) ∈
      (resultMatrix (load_from_file true ColumnId.auto false "d" c1NegTable)).flatten := by
  decide

/-- C1, amended: after orientation resolution, if any remaining data
column's dtype is not the integer dtype — that is, the column contains a
fractional or non-numeric value — the load fails with `NonCountData` and
no dataset is produced.  Negative integers do not trigger the failure. -/
theorem C1_fails_on_noninteger_dtype (mode : ColumnId) (v : Bool) (d : String)
    (t : ParsedTable)
    (h : (resolveOrientation mode t).dtypes.any
      (fun dt => decide (dt ≠ Dtype.int64)) = true) :
    load_from_file true mode v d t = Except.error LoadError.nonCountData := by
  rw [load_true_eq, if_pos (by rw [dedupFrame_dtypes]; exact h)]

/-- C1, witness: a table holding a fractional value fails as amended. -/
theorem C1_witness :
    ((resolveOrientation ColumnId.auto c1FracTable).dtypes.any
        (fun dt => decide (dt ≠ Dtype.int64)) = true) ∧
    load_from_file true ColumnId.auto false "d" c1FracTable
      = Except.error LoadError.nonCountData :=
  ⟨by decide, C1_fails_on_noninteger_dtype ColumnId.auto false "d" c1FracTable (by decide)⟩

/-- C2, counterexample.  The claim says the returned row labels are
pairwise unique, including for inputs whose labels differ only by literal
double quotes.  Labels `"GeneA"` (quoted) and `GeneA` are distinct when
`index.duplicated` runs, both survive, and line 81's quote stripping then
maps both to `GeneA`: the returned index is `[GeneA, GeneA]`. -/
theorem C2_counterexample :
    resultIndex (load_from_file true ColumnId.auto false "d" c2QuoteTable)
      = ["GeneA", "GeneA"] ∧
    ¬ (resultIndex (load_from_file true ColumnId.auto false "d" c2QuoteTable)).Nodup := by
  decide

/-- C2, amended: on every successful load whose resolved row labels are
free of double quotes, the returned row labels are pairwise unique;
deduplication runs before quote stripping, so only quote stripping can
reintroduce duplicates. -/
theorem C2_nodup_of_quote_free (mode : ColumnId) (v : Bool) (d : String)
    (t : ParsedTable)
    (hq : (resolveOrientation mode t).rows.all (fun p => labelNoQuote p.1) = true) :
    (resultIndex (load_from_file true mode v d t)).Nodup := by
  cases hE : load_from_file true mode v d t with
  | error e => simp [resultIndex]
  | ok p =>
    obtain ⟨D, m⟩ := p
    obtain ⟨hD, hstr⟩ := load_ok_inv hE
    have hidx := load_ok_index hE
    simp only [resultIndex]
    rw [hidx]
    have hmap1 : (survivingRows mode t).map (fun p => stripQuotes (labelStr p.1))
        = (survivingRows mode t).map (fun p => labelStr p.1) := by
      apply List.map_congr_left
      intro q hq2
      exact stripQuotes_of_noQuote (surviving_label_facts hstr hq hq2).2.1
    have hmap2 : (survivingRows mode t).map (fun p => labelStr p.1)
        = ((survivingRows mode t).map Prod.fst).map labelStr := by
      rw [List.map_map]
      rfl
    rw [hmap1, hmap2]
    have hsub : List.Sublist (survivingRows mode t)
        (dedupFrame (resolveOrientation mode t)).rows :=
      List.filter_sublist _
    have hkeys : ((survivingRows mode t).map Prod.fst).Nodup :=
      List.Nodup.sublist (List.Sublist.map Prod.fst hsub) (dedup_keys_nodup _)
    apply List.Nodup.map_on ?_ hkeys
    intro x hx y hy hxy
    obtain ⟨px, hpx, hpx1⟩ := List.mem_map.mp hx
    obtain ⟨py, hpy, hpy1⟩ := List.mem_map.mp hy
    obtain ⟨sx, hsx⟩ := isStrLabel_exists (surviving_label_facts hstr hq hpx).1
    obtain ⟨sy, hsy⟩ := isStrLabel_exists (surviving_label_facts hstr hq hpy).1
    rw [← hpx1, ← hpy1] at hxy ⊢
    rw [hsx, hsy] at hxy ⊢
    rw [labelStr_val_strVal, labelStr_val_strVal] at hxy
    rw [hxy]

/-- C2, witness: a quote-free table's returned labels are unique. -/
theorem C2_witness :
    ((resolveOrientation ColumnId.auto c2CleanTable).rows.all
        (fun p => labelNoQuote p.1) = true) ∧
    (resultIndex (load_from_file true ColumnId.auto false "d" c2CleanTable)).Nodup :=
  ⟨by decide, C2_nodup_of_quote_free ColumnId.auto false "d" c2CleanTable (by decide)⟩

/-- C3, counterexample.  The claim says no returned row label matches the
control pattern, including for labels carrying leading literal quotes.
The label `"ArrayControl-3"` (with quotes) does not match the anchored
pattern when the probe filter runs on line 79, survives, and line 81's
quote stripping turns it into `ArrayControl-3`, which does match. -/
theorem C3_counterexample :
    "ArrayControl-3" ∈
      resultIndex (load_from_file true ColumnId.auto false "d" c3QuoteCtlTable) ∧
    matchesControl "ArrayControl-3" = true := by
  decide

/-- C3, amended: on every successful load whose resolved row labels are
free of double quotes, no returned row label matches the control-probe
pattern; probe filtering runs before quote stripping, so only quoted
labels can smuggle a matching label through. -/
theorem C3_no_control_of_quote_free (mode : ColumnId) (v : Bool) (d : String)
    (t : ParsedTable)
    (hq : (resolveOrientation mode t).rows.all (fun p => labelNoQuote p.1) = true) :
    ∀ s ∈ resultIndex (load_from_file true mode v d t), matchesControl s = false := by
  intro s hs
  cases hE : load_from_file true mode v d t with
  | error e =>
    rw [hE] at hs
    simp [resultIndex] at hs
  | ok p =>
    obtain ⟨D, m⟩ := p
    rw [hE] at hs
    obtain ⟨hD, hstr⟩ := load_ok_inv hE
    have hidx := load_ok_index hE
    simp only [resultIndex] at hs
    rw [hidx] at hs
    obtain ⟨q, hq2, hq3⟩ := List.mem_map.mp hs
    have hfacts := surviving_label_facts hstr hq hq2
    rw [stripQuotes_of_noQuote hfacts.2.1] at hq3
    rw [← hq3]
    exact hfacts.2.2

/-- C3, witness: a quote-free load where a control row was present. -/
theorem C3_witness :
    ((resolveOrientation ColumnId.auto c3CleanTable).rows.all
        (fun p => labelNoQuote p.1) = true) ∧
    matchesControl "GeneA" = false :=
  ⟨by decide,
   C3_no_control_of_quote_free ColumnId.auto false "d" c3CleanTable (by decide)
     "GeneA" (by decide)⟩

/-- C4, counterexample.  The claim says that an input whose only
non-count values sit in control-probe rows loads successfully because
probe filtering precedes count validation.  On this table the single
fractional value lies in the `ArrayControl-1` row, yet the load fails
with `NonCountData`: line 77's dtype check runs before line 79's probe
filter. -/
theorem C4_counterexample :
    ((resolveOrientation ColumnId.yes c4CtlTable).rows.all
        (fun p => p.2.all Cell.isInt || matchesControl (labelStr p.1)) = true) ∧
    resultError (load_from_file true ColumnId.yes false "d" c4CtlTable)
      = some LoadError.nonCountData := by
  decide

/-- C4, amended: count validation runs before control-probe filtering —
even when every non-integer value lies in a row whose label matches the
control pattern, a non-integer column dtype makes the load fail with
`NonCountData` instead of succeeding. -/
theorem C4_validation_precedes_probe (mode : ColumnId) (v : Bool) (d : String)
    (t : ParsedTable)
    (hctl : (resolveOrientation mode t).rows.all
        (fun p => p.2.all Cell.isInt || matchesControl (labelStr p.1)) = true)
    (h : (resolveOrientation mode t).dtypes.any
        (fun dt => decide (dt ≠ Dtype.int64)) = true) :
    load_from_file true mode v d t = Except.error LoadError.nonCountData := by
  rw [load_true_eq, if_pos (by rw [dedupFrame_dtypes]; exact h)]

/-- C4, witness: the amended ordering fact at the concrete table. -/
theorem C4_witness :
    ((resolveOrientation ColumnId.yes c4CtlTable).rows.all
        (fun p => p.2.all Cell.isInt || matchesControl (labelStr p.1)) = true) ∧
    ((resolveOrientation ColumnId.yes c4CtlTable).dtypes.any
        (fun dt => decide (dt ≠ Dtype.int64)) = true) ∧
    load_from_file true ColumnId.yes false "d" c4CtlTable
      = Except.error LoadError.nonCountData :=
  ⟨by decide, by decide,
   C4_validation_precedes_probe ColumnId.yes false "d" c4CtlTable (by decide) (by decide)⟩

/-- C5, counterexample.  The claim says the default separator behaves as
one-or-more whitespace: a line whose fields are separated by a run of two
spaces should parse like the single-space line.  It does not: the default
pattern matches exactly one whitespace character, so `a  b` parses into
three fields with an empty middle field. -/
theorem C5_counterexample :
    parseFieldsDefault "a  b" ≠ parseFieldsDefault "a b" ∧
    parseFieldsDefault "a  b" = ["a", "", "b"] ∧
    parseFieldsDefault "a b" = ["a", "b"] := by
  decide

/-- C5, amended: the default separator matches exactly one whitespace
character — two whitespace-free fields separated by a run of `n ≥ 1`
spaces parse into the two fields with `n - 1` empty fields between
them, so runs do not collapse into a single separator. -/
theorem C5_single_whitespace_law (a b : List Char) (n : Nat)
    (ha : a.all (fun c => !c.isWhitespace) = true)
    (hb : b.all (fun c => !c.isWhitespace) = true)
    (hn : 1 ≤ n) :
    rsplitWS (a ++ List.replicate n ' ' ++ b)
      = a :: (List.replicate (n - 1) [] ++ [b]) := by
  obtain ⟨k, rfl⟩ : ∃ k, n = k + 1 := ⟨n - 1, by omega⟩
  rw [List.replicate_succ, List.append_assoc, List.cons_append,
    rsplitWS_solid_cons a _ ha, rsplitWS_ws_runs, rsplitWS_all_solid b hb]
  simp

/-- C5, witness: the amended law at two one-letter fields and a run of
two spaces. -/
theorem C5_witness :
    (['a'].all (fun c => !c.isWhitespace) = true) ∧
    rsplitWS (['a'] ++ List.replicate 2 ' ' ++ ['b'])
      = ['a'] :: (List.replicate 1 [] ++ [['b']]) :=
  ⟨by decide, C5_single_whitespace_law ['a'] ['b'] 2 (by decide) (by decide) (by decide)⟩

/-- C6: when the file does not exist the load fails with the
file-not-found error, whatever the parsed content would have been — the
check of line 52 dominates every later stage, so no read or parse result
can influence the outcome. -/
theorem C6_missing_file (mode : ColumnId) (v : Bool) (d : String) (t : ParsedTable) :
    load_from_file false mode v d t = Except.error LoadError.fileNotFound := rfl

/-- C7: in orientation mode auto, a nonempty first column consisting
entirely of integers stays a data column (the frame is the parsed one,
labels untouched); a first column with any non-integer value is promoted
wholesale to the row labels and dropped from the value matrix and from
the column labels. -/
theorem C7_auto_orientation (t : ParsedTable) (h : t.rows ≠ []) :
    ((firstColumn t).all Cell.isInt = true →
      (resolveOrientation ColumnId.auto t).cols = t.cols ∧
      (resolveOrientation ColumnId.auto t).rows.map Prod.snd = t.rows) ∧
    ((firstColumn t).all Cell.isInt = false →
      (resolveOrientation ColumnId.auto t).rows.map Prod.fst
        = (firstColumn t).map RowLabel.val ∧
      (resolveOrientation ColumnId.auto t).rows.map Prod.snd
        = t.rows.map (List.drop 1) ∧
      (resolveOrientation ColumnId.auto t).cols = t.cols.drop 1) := by
  have hfc : firstColumn t ≠ [] := by
    unfold firstColumn
    intro hnil
    exact h (List.map_eq_nil_iff.mp hnil)
  constructor
  · intro hall
    have hdt : colDtype (firstColumn t) = Dtype.int64 := (colDtype_int64_iff hfc).mpr hall
    unfold resolveOrientation
    rw [if_pos hdt]
    exact ⟨rfl, initFrame_rows_snd t⟩
  · intro hall
    have hdt : ¬ colDtype (firstColumn t) = Dtype.int64 := by
      intro hcontra
      have h2 := (colDtype_int64_iff hfc).mp hcontra
      rw [h2] at hall
      exact absurd hall (by decide)
    unfold resolveOrientation
    rw [if_neg hdt]
    exact ⟨move_col_rows_fst t, move_col_rows_snd t, rfl⟩

/-- C7, witness: an all-integer first column is kept as data. -/
theorem C7_witness :
    c7IntTable.rows ≠ [] ∧
    (firstColumn c7IntTable).all Cell.isInt = true ∧
    ((resolveOrientation ColumnId.auto c7IntTable).cols = c7IntTable.cols ∧
     (resolveOrientation ColumnId.auto c7IntTable).rows.map Prod.snd = c7IntTable.rows) :=
  ⟨by decide, by decide, (C7_auto_orientation c7IntTable (by decide)).1 (by decide)⟩

/-- C8: a label occurring at least twice leaves no row in the
deduplicated frame; a label occurring exactly once keeps exactly its
original rows, unchanged; and the verbose message reports exactly the
number of rows that were removed. -/
theorem C8_duplicate_policy (f : Frame) :
    (∀ l : RowLabel, 2 ≤ countLabel f.rows l → countLabel (dedupFrame f).rows l = 0) ∧
    (∀ l : RowLabel, countLabel f.rows l = 1 →
      (dedupFrame f).rows.filter (fun p => decide (p.1 = l))
        = f.rows.filter (fun p => decide (p.1 = l))) ∧
    (dedupFrame f).rows.length + numDups f = f.rows.length ∧
    dupMsgs true f
      = (if numDups f = 0 then []
         else [toString (f.rows.length - (dedupFrame f).rows.length)
                ++ " duplicated genes detected and removed."]) := by
  refine ⟨countLabel_dedup_dup_zero f, dedup_unique_rows_unchanged f,
    dedup_length_add_numDups f, ?_⟩
  have hlen := dedup_length_add_numDups f
  unfold dupMsgs
  by_cases h0 : numDups f = 0
  · simp [h0]
  · have hbeq : (numDups f == 0) = false := by
      rw [beq_eq_false_iff_ne]
      exact h0
    rw [hbeq, if_neg h0]
    simp only [Bool.not_false, Bool.and_self, if_true]
    have hdiff : f.rows.length - (dedupFrame f).rows.length = numDups f := by omega
    rw [hdiff]

/-- C8, witness: the policy at a frame with `Gapdh` twice, `Actin`
once. -/
theorem C8_witness :
    2 ≤ countLabel c8DupFrame.rows (RowLabel.val (Cell.strVal "Gapdh")) ∧
    countLabel (dedupFrame c8DupFrame).rows (RowLabel.val (Cell.strVal "Gapdh")) = 0 ∧
    countLabel c8DupFrame.rows (RowLabel.val (Cell.strVal "Actin")) = 1 ∧
    (dedupFrame c8DupFrame).rows.filter
        (fun p => decide (p.1 = RowLabel.val (Cell.strVal "Actin")))
      = c8DupFrame.rows.filter
        (fun p => decide (p.1 = RowLabel.val (Cell.strVal "Actin"))) :=
  ⟨by decide, (C8_duplicate_policy c8DupFrame).1 _ (by decide), by decide,
   (C8_duplicate_policy c8DupFrame).2.1 _ (by decide)⟩

/-- C9: with a computed tsne embedding but no clustering, `cell_plot`
does not plot — it dies on the unbound name `X` in
`cl = [0]*X.shape[0]` (the embedding variable is `E`), before the
verbose message and before any scatter call. -/
theorem C9_missing_clustering_dies :
    plotOutcome (cell_plot c9PlotObj "tsne" 1 true) = some PlotError.nameErrorX := by
  decide

/-- C10: on every successful load, the returned row labels are exactly
the surviving pre-sanitization labels with every double quote removed,
the returned column labels are the resolved column labels with every
double quote removed, and quote stripping removes exactly the double
quote characters, preserving all other characters in order. -/
theorem C10_label_sanitization (mode : ColumnId) (v : Bool) (d : String)
    (t : ParsedTable) (D : Dataset) (m : List String)
    (h : load_from_file true mode v d t = Except.ok (D, m)) :
    D.index = (survivingRows mode t).map (fun p => stripQuotes (labelStr p.1)) ∧
    D.cols = (resolveOrientation mode t).cols.map stripQuotes ∧
    (∀ s : String, (stripQuotes s).data = s.data.filter (fun c => decide (c ≠ '"'))) := by
  refine ⟨load_ok_index h, ?_, ?_⟩
  · obtain ⟨hD, _⟩ := load_ok_inv h
    subst hD
    rfl
  · intro s
    unfold stripQuotes
    rw [removeQuotes_eq_filter]

/-- C10, witness: the sanitization facts at a load with quoted labels. -/
theorem C10_witness :
    load_from_file true ColumnId.auto false "d" c10QuoteTable
      = Except.ok (c10Dataset, []) ∧
    (c10Dataset.index = (survivingRows ColumnId.auto c10QuoteTable).map
        (fun p => stripQuotes (labelStr p.1)) ∧
     c10Dataset.cols = (resolveOrientation ColumnId.auto c10QuoteTable).cols.map stripQuotes ∧
     (∀ s : String, (stripQuotes s).data = s.data.filter (fun c => decide (c ≠ '"')))) :=
  ⟨rfl, C10_label_sanitization ColumnId.auto false "d" c10QuoteTable c10Dataset [] rfl⟩

end Adobo
